import Mathlib

/-!
Verification of the SimFi rewards engine core.

The definitions below are shallow embeddings of the TypeScript sources:
`rewardsEngine.ts` (epoch processing, pot accounting, payout planning,
recovery, top-wallet selection) and `bagsService.ts` (payout validation
and fee estimation).  Lamport amounts are embedded as `Int` (TypeScript
`bigint`); `bigint` division truncates toward zero, which is `Int.tdiv`.
-/

-- ===========================================================================
-- Configuration constants (rewardsEngine.ts lines 77-86, bagsService.ts)
-- ===========================================================================

/-- Embedded default of `VAULT_RESERVE_LAMPORTS` (0.05 SOL). -/
def VAULT_RESERVE_LAMPORTS : Int := 50000000

/-- Embedded `MIN_TRADES` default (`REWARDS_MIN_TRADES`, default 3). -/
def MIN_TRADES : Nat := 3

/-- Embedded `MAX_SAFE_LAMPORTS = BigInt(Number.MAX_SAFE_INTEGER)` from
`bagsService.ts`; equals 2^53 - 1. -/
def MAX_SAFE_LAMPORTS : Int := 9007199254740991

/-- Embedded `PAYOUT_WEIGHTS = [50n, 30n, 20n]`. -/
def PAYOUT_WEIGHTS : List Int := [50, 30, 20]

/-- Embedding of `BagsService.estimatePayoutFee`:
`BigInt(5000 + numWinners * 5000 + 10000)`. -/
def estimatePayoutFee (numWinners : Nat) : Int :=
  5000 + (numWinners : Int) * 5000 + 10000

-- ===========================================================================
-- Wallet-address character class (regex /^[1-9A-HJ-NP-Za-km-z]{32,44}$/,
-- used both in `getTopWallets` and in `sendPayout` validation)
-- ===========================================================================

/-- One character of the base58 class `[1-9A-HJ-NP-Za-km-z]`. -/
def isBase58Char (c : Char) : Bool :=
  (Char.ofNat 49 ≤ c && c ≤ Char.ofNat 57) ||
  (Char.ofNat 65 ≤ c && c ≤ Char.ofNat 72) ||
  (Char.ofNat 74 ≤ c && c ≤ Char.ofNat 78) ||
  (Char.ofNat 80 ≤ c && c ≤ Char.ofNat 90) ||
  (Char.ofNat 97 ≤ c && c ≤ Char.ofNat 107) ||
  (Char.ofNat 109 ≤ c && c ≤ Char.ofNat 122)

/-- Embedding of the address test `/^[1-9A-HJ-NP-Za-km-z]{32,44}$/.test s`. -/
def matchesAddressPattern (s : String) : Bool :=
  decide (32 ≤ s.length) && decide (s.length ≤ 44) && s.data.all isBase58Char

-- ===========================================================================
-- Pot accounting (rewardsEngine.ts lines 511-513 and 796-811)
-- ===========================================================================

/-- Embedding of the inflow split computed at rewardsEngine.ts lines 512-513:
`rewardInflow = (totalInflow * BigInt(REWARDS_POOL_BPS)) / 10000n` and
`treasuryInflow = totalInflow - rewardInflow`.  The spec calls this pure
function `splitInflow`. -/
def splitInflow (totalInflow : Int) (poolBps : Int) : Int × Int :=
  let rewardInflow := (totalInflow * poolBps).tdiv 10000
  (rewardInflow, totalInflow - rewardInflow)

/-- One row of a `TopWallet` as produced by `getTopWallets`. -/
structure TopWallet where
  wallet : String
  profitLamports : Int
  tradeCount : Nat
  userId : String
deriving DecidableEq, Repr, Inhabited

/-- One entry of a payout plan (`PayoutPlanEntry` in the shared schema). -/
structure PayoutPlanEntry where
  rank : Nat
  wallet : String
  amountLamports : Int
  userId : String
  profitLamports : Int
  tradeCount : Nat
deriving DecidableEq, Repr, Inhabited

/-- Embedding of `RewardsEngine.buildPayoutPlan` (lines 796-811):
`a1 = pot * 50n / 100n`, `a2 = pot * 30n / 100n`, `a3 = pot - a1 - a2`
(remainder to 3rd), mapped over the three top wallets by index. -/
def buildPayoutPlan (potLamports : Int) (top3 : List TopWallet) :
    List PayoutPlanEntry :=
  let a1 := (potLamports * PAYOUT_WEIGHTS.getD 0 0).tdiv 100
  let a2 := (potLamports * PAYOUT_WEIGHTS.getD 1 0).tdiv 100
  let a3 := potLamports - a1 - a2
  let amounts := [a1, a2, a3]
  top3.enum.map fun p =>
    { rank := p.1 + 1
      wallet := p.2.wallet
      amountLamports := amounts.getD p.1 0
      userId := p.2.userId
      profitLamports := p.2.profitLamports
      tradeCount := p.2.tradeCount }

-- ===========================================================================
-- C3 / C4 / C5 theorems
-- ===========================================================================

/-- C5: for non-negative `totalInflow` and `poolBps` in `[0, 10000]`, the
inflow split yields `rewardInflow = floor(x * poolBps / 10000)` and
`treasuryInflow = x - rewardInflow`; both are non-negative, they sum to
`x`, and both are `0` when `x = 0`. -/
theorem splitInflow_correct (x bps : Int) (hx : 0 ≤ x) (hb0 : 0 ≤ bps)
    (hb1 : bps ≤ 10000) :
    (splitInflow x bps).1 = (x * bps) / 10000 ∧
    0 ≤ (splitInflow x bps).1 ∧
    0 ≤ (splitInflow x bps).2 ∧
    (splitInflow x bps).1 + (splitInflow x bps).2 = x ∧
    (x = 0 → (splitInflow x bps).1 = 0 ∧ (splitInflow x bps).2 = 0) := by
  have hxb : 0 ≤ x * bps := mul_nonneg hx hb0
  have htd : (x * bps).tdiv 10000 = (x * bps) / 10000 :=
    Int.tdiv_eq_ediv hxb (by norm_num)
  have hfst : (splitInflow x bps).1 = (x * bps) / 10000 := by
    simp [splitInflow, htd]
  have hsnd : (splitInflow x bps).2 = x - (x * bps) / 10000 := by
    simp [splitInflow, htd]
  have hble : x * bps ≤ x * 10000 := by nlinarith
  have hq0 : 0 ≤ (x * bps) / 10000 := Int.ediv_nonneg hxb (by norm_num)
  have hqx : (x * bps) / 10000 ≤ x := by
    have h1 : (x * bps) / 10000 ≤ (x * 10000) / 10000 :=
      Int.ediv_le_ediv (by norm_num) hble
    have h2 : (x * 10000) / 10000 = x := Int.mul_ediv_cancel x (by norm_num)
    omega
  refine ⟨hfst, ?_, ?_, ?_, ?_⟩
  · rw [hfst]
    exact hq0
  · rw [hsnd]
    omega
  · rw [hfst, hsnd]
    ring
  · intro h
    subst h
    rw [hfst, hsnd]
    norm_num

/-- Witness for `splitInflow_correct` at `x = 200000000`, `bps = 5000`. -/
theorem splitInflow_correct_witness :
    (0 : Int) ≤ 200000000 ∧ (0 : Int) ≤ 5000 ∧ (5000 : Int) ≤ 10000 ∧
    ((splitInflow 200000000 5000).1 = (200000000 * 5000) / 10000 ∧
     0 ≤ (splitInflow 200000000 5000).1 ∧
     0 ≤ (splitInflow 200000000 5000).2 ∧
     (splitInflow 200000000 5000).1 + (splitInflow 200000000 5000).2 =
       200000000 ∧
     ((200000000 : Int) = 0 → (splitInflow 200000000 5000).1 = 0 ∧
       (splitInflow 200000000 5000).2 = 0)) :=
  ⟨by norm_num, by norm_num, by norm_num,
   splitInflow_correct 200000000 5000 (by norm_num) (by norm_num)
     (by norm_num)⟩

/-- C3: for every non-negative pot `P < 2^63` and any three top wallets,
the payout plan has exactly the amounts `a1 = floor(P*50/100)`,
`a2 = floor(P*30/100)`, `a3 = P - a1 - a2`; all three are non-negative
and they sum to `P` exactly. -/
theorem buildPayoutPlan_sum_nonneg (P : Int) (t : List TopWallet)
    (hP : 0 ≤ P) (hP63 : P < 2 ^ 63) (ht : t.length = 3) :
    (buildPayoutPlan P t).length = 3 ∧
    (buildPayoutPlan P t).map (·.amountLamports) =
      [(P * 50) / 100, (P * 30) / 100,
       P - (P * 50) / 100 - (P * 30) / 100] ∧
    (∀ e ∈ buildPayoutPlan P t, 0 ≤ e.amountLamports) ∧
    ((buildPayoutPlan P t).map (·.amountLamports)).sum = P := by
  have h50 : (P * 50).tdiv 100 = (P * 50) / 100 :=
    Int.tdiv_eq_ediv (by positivity) (by norm_num)
  have h30 : (P * 30).tdiv 100 = (P * 30) / 100 :=
    Int.tdiv_eq_ediv (by positivity) (by norm_num)
  match t, ht with
  | [w1, w2, w3], _ =>
    have hmap : (buildPayoutPlan P [w1, w2, w3]).map (·.amountLamports) =
        [(P * 50).tdiv 100, (P * 30).tdiv 100,
         P - (P * 50).tdiv 100 - (P * 30).tdiv 100] := rfl
    refine ⟨rfl, ?_, ?_, ?_⟩
    · rw [hmap, h50, h30]
    · intro e he
      have hin : e.amountLamports ∈
          (buildPayoutPlan P [w1, w2, w3]).map (·.amountLamports) :=
        List.mem_map_of_mem _ he
      rw [hmap, h50, h30] at hin
      simp only [List.mem_cons, List.not_mem_nil, or_false] at hin
      rcases hin with h | h | h <;> rw [h] <;> omega
    · rw [hmap, h50, h30]
      simp only [List.sum_cons, List.sum_nil]
      ring

/-- Witness for `buildPayoutPlan_sum_nonneg` at `P = 100` and three
concrete wallets. -/
theorem buildPayoutPlan_sum_nonneg_witness :
    ((0 : Int) ≤ 100 ∧ (100 : Int) < 2 ^ 63 ∧
      ([⟨"w1", 1, 3, "u1"⟩, ⟨"w2", 1, 3, "u2"⟩,
        ⟨"w3", 1, 3, "u3"⟩] : List TopWallet).length = 3) ∧
    ((buildPayoutPlan 100 [⟨"w1", 1, 3, "u1"⟩, ⟨"w2", 1, 3, "u2"⟩,
        ⟨"w3", 1, 3, "u3"⟩]).map (·.amountLamports)).sum = 100 :=
  ⟨⟨by norm_num, by norm_num, by decide⟩,
   (buildPayoutPlan_sum_nonneg 100 _ (by norm_num) (by norm_num)
     (by decide)).2.2.2⟩

/-- Concrete three-wallet list used in counterexamples. -/
def cexTop3 : List TopWallet :=
  [⟨"w1", 1, 3, "u1"⟩, ⟨"w2", 1, 3, "u2"⟩, ⟨"w3", 1, 3, "u3"⟩]

/-- C4 counterexample: at `totalPot = 9` the payout plan is `[4, 2, 3]`,
so the rank-2 amount is strictly below the rank-3 amount — the claimed
non-increasing order `plan[1].amount ≥ plan[2].amount` is false. -/
theorem buildPayoutPlan_rank_order_cex :
    (buildPayoutPlan 9 cexTop3).map (·.amountLamports) = [4, 2, 3] ∧
    ¬ (((buildPayoutPlan 9 cexTop3).getD 1 default).amountLamports ≥
        ((buildPayoutPlan 9 cexTop3).getD 2 default).amountLamports) := by
  decide

/-- C4 amended: the rank-1 amount is always at least the rank-2 amount,
and whenever `totalPot ≥ 30` the rank-2 amount is at least the rank-3
amount (small pots such as 9 or 13 violate the latter). -/
theorem buildPayoutPlan_rank_order_amended (P : Int) (t : List TopWallet)
    (hP : 0 ≤ P) (ht : t.length = 3) :
    ((buildPayoutPlan P t).getD 0 default).amountLamports ≥
      ((buildPayoutPlan P t).getD 1 default).amountLamports ∧
    (30 ≤ P →
      ((buildPayoutPlan P t).getD 1 default).amountLamports ≥
        ((buildPayoutPlan P t).getD 2 default).amountLamports) := by
  have h50 : (P * 50).tdiv 100 = (P * 50) / 100 :=
    Int.tdiv_eq_ediv (by positivity) (by norm_num)
  have h30 : (P * 30).tdiv 100 = (P * 30) / 100 :=
    Int.tdiv_eq_ediv (by positivity) (by norm_num)
  match t, ht with
  | [w1, w2, w3], _ =>
    have e1 : ((buildPayoutPlan P [w1, w2, w3]).getD 0
        default).amountLamports = (P * 50).tdiv 100 := rfl
    have e2 : ((buildPayoutPlan P [w1, w2, w3]).getD 1
        default).amountLamports = (P * 30).tdiv 100 := rfl
    have e3 : ((buildPayoutPlan P [w1, w2, w3]).getD 2
        default).amountLamports =
        P - (P * 50).tdiv 100 - (P * 30).tdiv 100 := rfl
    rw [e1, e2, e3, h50, h30]
    constructor
    · omega
    · intro h30P
      omega

/-- Witness for `buildPayoutPlan_rank_order_amended` at `P = 100`. -/
theorem buildPayoutPlan_rank_order_amended_witness :
    ((0 : Int) ≤ 100 ∧ (cexTop3.length = 3) ∧ (30 : Int) ≤ 100) ∧
    ((buildPayoutPlan 100 cexTop3).getD 1 default).amountLamports ≥
      ((buildPayoutPlan 100 cexTop3).getD 2 default).amountLamports :=
  ⟨⟨by norm_num, by decide, by norm_num⟩,
   (buildPayoutPlan_rank_order_amended 100 cexTop3 (by norm_num)
     (by decide)).2 (by norm_num)⟩

-- ===========================================================================
-- Engine state model (rewardsEngine.ts / shared schema)
-- ===========================================================================

/-- Epoch status values (`status` varchar of `rewards_epochs`). -/
inductive EpochStatus where
  | created
  | claiming
  | paying
  | completed
  | skipped
  | failed
deriving DecidableEq, Repr, Inhabited

/-- One row of `rewards_epochs` (the fields the engine core manipulates;
timestamps are abstracted away). -/
structure EpochRec where
  periodId : Nat
  periodEnd : Nat
  beforeBalanceLamports : Option Int := none
  afterBalanceLamports : Option Int := none
  totalInflowLamports : Int := 0
  rewardInflowLamports : Int := 0
  treasuryInflowLamports : Int := 0
  carryInLamports : Int := 0
  totalPotLamports : Int := 0
  payoutPlan : List PayoutPlanEntry := []
  totalPaidLamports : Int := 0
  payoutTxSignature : Option String := none
  status : EpochStatus := .created
  failureReason : Option String := none
deriving DecidableEq, Repr, Inhabited

/-- The singleton `rewards_state` row (id = 1). -/
structure RewardsStateRow where
  carryRewardsLamports : Int := 0
  treasuryAccruedLamports : Int := 0
  lastProcessedPeriodId : Option Nat := none
  lastProcessedPeriodEnd : Option Nat := none
deriving DecidableEq, Repr, Inhabited

/-- Engine configuration snapshot (`REWARDS_POOL_BPS` after clamping and
`VAULT_RESERVE_LAMPORTS`). -/
structure Config where
  rewardsPoolBps : Int
  vaultReserveLamports : Int
deriving DecidableEq, Repr

/-- The claim-phase results fed into the Decide transaction
(rewardsEngine.ts lines 506-513). -/
structure ClaimResult where
  afterBalance : Int
  totalInflow : Int
  rewardInflow : Int
  treasuryInflow : Int
deriving DecidableEq, Repr

/-- Embedding of the claim-phase arithmetic of `processEpoch` (lines
506-513): `totalInflow = afterBalance > beforeBalance ? diff : 0n`, then
the inflow split. -/
def computeClaimResult (cfg : Config) (beforeBalance afterBalance : Int) :
    ClaimResult :=
  let totalInflow :=
    if beforeBalance < afterBalance then afterBalance - beforeBalance else 0
  let split := splitInflow totalInflow cfg.rewardsPoolBps
  { afterBalance := afterBalance
    totalInflow := totalInflow
    rewardInflow := split.1
    treasuryInflow := split.2 }

/-- Result of the Decide transaction. -/
structure DecideOutcome where
  state : RewardsStateRow
  epoch : EpochRec
  skip : Bool
deriving DecidableEq, Repr

/-- Embedding of the Decide transaction of `RewardsEngine.processEpoch`
(rewardsEngine.ts lines 516-615): records the claim results on the
epoch, accrues the treasury share, and then either skips (too few
eligible wallets, or insufficient vault balance: carry := totalPot and
the cursor advances), or atomically zeroes the carry, stores the payout
plan, and marks the epoch `paying` with `totalPaid = totalPot`. -/
def decidePhase (cfg : Config) (state : RewardsStateRow) (epoch : EpochRec)
    (cr : ClaimResult) (top3 : List TopWallet) : DecideOutcome :=
  let carryIn := state.carryRewardsLamports
  let totalPot := carryIn + cr.rewardInflow
  let epoch1 : EpochRec :=
    { epoch with
      afterBalanceLamports := some cr.afterBalance
      totalInflowLamports := cr.totalInflow
      rewardInflowLamports := cr.rewardInflow
      treasuryInflowLamports := cr.treasuryInflow
      carryInLamports := carryIn
      totalPotLamports := totalPot }
  let state1 : RewardsStateRow :=
    { state with
      treasuryAccruedLamports :=
        state.treasuryAccruedLamports + cr.treasuryInflow }
  if top3.length < 3 then
    { state :=
        { state1 with
          carryRewardsLamports := totalPot
          lastProcessedPeriodId := some epoch.periodId
          lastProcessedPeriodEnd := some epoch.periodEnd }
      epoch :=
        { epoch1 with
          status := .skipped
          failureReason := some "insufficient_eligible_wallets" }
      skip := true }
  else
    let fee := estimatePayoutFee 3
    let minRequired := totalPot + cfg.vaultReserveLamports + fee
    if cr.afterBalance < minRequired then
      { state :=
          { state1 with
            carryRewardsLamports := totalPot
            lastProcessedPeriodId := some epoch.periodId
            lastProcessedPeriodEnd := some epoch.periodEnd }
        epoch :=
          { epoch1 with
            status := .skipped
            failureReason := some "insufficient_vault_balance" }
        skip := true }
    else
      let plan := buildPayoutPlan totalPot top3
      { state := { state1 with carryRewardsLamports := 0 }
        epoch :=
          { epoch1 with
            status := .paying
            payoutPlan := plan
            totalPaidLamports := totalPot }
        skip := false }

/-- The outcome of `bagsService.sendPayout` as observed by the engine. -/
structure PayoutResponse where
  success : Bool
  signature : Option String := none
  error : Option String := none
deriving DecidableEq, Repr

/-- Embedding of `RewardsEngine.finalizeEpoch` (lines 709-757): winners
inserted, epoch marked `completed` with `totalPaid = totalPot`, and the
cursor advanced to the epoch's period. -/
def finalizeEpoch (state : RewardsStateRow) (epoch : EpochRec)
    (txSignature : Option String) : RewardsStateRow × EpochRec :=
  ({ state with
      lastProcessedPeriodId := some epoch.periodId
      lastProcessedPeriodEnd := some epoch.periodEnd },
   { epoch with
      status := .completed
      payoutTxSignature := txSignature
      totalPaidLamports := epoch.totalPotLamports })

/-- Embedding of `RewardsEngine.executePayout` (lines 656-707) for the
live (non-dry-run, service-ready) path: on `success && signature` the
signature is persisted and the epoch finalized; otherwise one
transaction adds `totalPot` back to the carry (guarded by the bigint
truthiness test `if (epoch?.totalPotLamports)`) and marks the epoch
`failed`, leaving the cursor untouched. -/
def executePayout (state : RewardsStateRow) (epoch : EpochRec)
    (res : PayoutResponse) : RewardsStateRow × EpochRec :=
  if res.success && res.signature.isSome then
    finalizeEpoch state { epoch with payoutTxSignature := res.signature }
      res.signature
  else
    let state1 :=
      if epoch.totalPotLamports = 0 then state
      else
        { state with
          carryRewardsLamports :=
            state.carryRewardsLamports + epoch.totalPotLamports }
    (state1,
     { epoch with
        status := .failed
        failureReason := some (res.error.getD "payout_failed") })

-- ===========================================================================
-- C2 / C6 / C7 theorems
-- ===========================================================================

/-- C2: when three eligible wallets exist and the balance check passes,
the Decide transaction zeroes the carry, marks the epoch `paying`,
persists the payout plan, and records `totalPaid = totalPot`; and any
Decide transaction run from the resulting state reads `carryIn = 0`, so
no later epoch can consume the same pot. -/
theorem decide_commit_reserves_pot (cfg : Config) (state : RewardsStateRow)
    (epoch : EpochRec) (cr : ClaimResult) (top3 : List TopWallet)
    (h3 : ¬ top3.length < 3)
    (hbal : ¬ cr.afterBalance <
      state.carryRewardsLamports + cr.rewardInflow +
        cfg.vaultReserveLamports + estimatePayoutFee 3) :
    (decidePhase cfg state epoch cr top3).skip = false ∧
    (decidePhase cfg state epoch cr top3).state.carryRewardsLamports = 0 ∧
    (decidePhase cfg state epoch cr top3).epoch.status = .paying ∧
    (decidePhase cfg state epoch cr top3).epoch.payoutPlan =
      buildPayoutPlan (state.carryRewardsLamports + cr.rewardInflow) top3 ∧
    (decidePhase cfg state epoch cr top3).epoch.totalPaidLamports =
      (decidePhase cfg state epoch cr top3).epoch.totalPotLamports ∧
    (∀ (epoch2 : EpochRec) (cr2 : ClaimResult) (top2 : List TopWallet),
      (decidePhase cfg (decidePhase cfg state epoch cr top3).state epoch2
          cr2 top2).epoch.carryInLamports = 0) := by
  have hout : decidePhase cfg state epoch cr top3 =
      { state :=
          { state with
            treasuryAccruedLamports :=
              state.treasuryAccruedLamports + cr.treasuryInflow
            carryRewardsLamports := 0 }
        epoch :=
          { epoch with
            afterBalanceLamports := some cr.afterBalance
            totalInflowLamports := cr.totalInflow
            rewardInflowLamports := cr.rewardInflow
            treasuryInflowLamports := cr.treasuryInflow
            carryInLamports := state.carryRewardsLamports
            totalPotLamports := state.carryRewardsLamports + cr.rewardInflow
            status := .paying
            payoutPlan := buildPayoutPlan
              (state.carryRewardsLamports + cr.rewardInflow) top3
            totalPaidLamports :=
              state.carryRewardsLamports + cr.rewardInflow }
        skip := false } := by
    simp only [decidePhase, if_neg h3, if_neg hbal]
  refine ⟨by rw [hout], by rw [hout], by rw [hout], by rw [hout],
    by rw [hout], ?_⟩
  intro epoch2 cr2 top2
  rw [hout]
  simp only [decidePhase]
  split
  · rfl
  · split
    · rfl
    · rfl

/-- Witness for `decide_commit_reserves_pot` with a 3-wallet list and a
large vault balance. -/
theorem decide_commit_reserves_pot_witness :
    (¬ cexTop3.length < 3 ∧
     ¬ (1000000000 : Int) <
       (0 : Int) + 100 + VAULT_RESERVE_LAMPORTS + estimatePayoutFee 3) ∧
    (decidePhase ⟨5000, VAULT_RESERVE_LAMPORTS⟩ {}
      ⟨7, 7, none, none, 0, 0, 0, 0, 0, [], 0, none, .created, none⟩
      ⟨1000000000, 200, 100, 100⟩ cexTop3).state.carryRewardsLamports =
      0 :=
  ⟨⟨by decide, by norm_num [VAULT_RESERVE_LAMPORTS, estimatePayoutFee]⟩,
   (decide_commit_reserves_pot ⟨5000, VAULT_RESERVE_LAMPORTS⟩ {}
     ⟨7, 7, none, none, 0, 0, 0, 0, 0, [], 0, none, .created, none⟩
     ⟨1000000000, 200, 100, 100⟩ cexTop3 (by decide)
     (by norm_num [VAULT_RESERVE_LAMPORTS, estimatePayoutFee])).2.1⟩

/-- C6: the two skip branches of the Decide transaction.  With fewer
than 3 eligible wallets the epoch is skipped with reason
`insufficient_eligible_wallets`; with enough wallets but
`afterBalance < totalPot + reserve + estimatePayoutFee 3` it is skipped
with reason `insufficient_vault_balance`.  In both branches the carry is
set to `totalPot` and the cursor advances to this period. -/
theorem decide_skip_branches (cfg : Config) (state : RewardsStateRow)
    (epoch : EpochRec) (cr : ClaimResult) (top3 : List TopWallet) :
    (top3.length < 3 →
      (decidePhase cfg state epoch cr top3).skip = true ∧
      (decidePhase cfg state epoch cr top3).epoch.status = .skipped ∧
      (decidePhase cfg state epoch cr top3).epoch.failureReason =
        some "insufficient_eligible_wallets" ∧
      (decidePhase cfg state epoch cr top3).state.carryRewardsLamports =
        state.carryRewardsLamports + cr.rewardInflow ∧
      (decidePhase cfg state epoch cr top3).state.lastProcessedPeriodId =
        some epoch.periodId ∧
      (decidePhase cfg state epoch cr top3).state.lastProcessedPeriodEnd =
        some epoch.periodEnd) ∧
    (¬ top3.length < 3 →
      cr.afterBalance < state.carryRewardsLamports + cr.rewardInflow +
        cfg.vaultReserveLamports + estimatePayoutFee 3 →
      (decidePhase cfg state epoch cr top3).skip = true ∧
      (decidePhase cfg state epoch cr top3).epoch.status = .skipped ∧
      (decidePhase cfg state epoch cr top3).epoch.failureReason =
        some "insufficient_vault_balance" ∧
      (decidePhase cfg state epoch cr top3).state.carryRewardsLamports =
        state.carryRewardsLamports + cr.rewardInflow ∧
      (decidePhase cfg state epoch cr top3).state.lastProcessedPeriodId =
        some epoch.periodId ∧
      (decidePhase cfg state epoch cr top3).state.lastProcessedPeriodEnd =
        some epoch.periodEnd) := by
  constructor
  · intro h3
    simp only [decidePhase, if_pos h3]
    exact ⟨trivial, trivial, trivial, trivial, trivial, trivial⟩
  · intro h3 hbal
    simp only [decidePhase, if_neg h3, if_pos hbal]
    exact ⟨trivial, trivial, trivial, trivial, trivial, trivial⟩

/-- Witness for `decide_skip_branches`: with a single eligible wallet
the epoch is skipped and the pot moves to the carry. -/
theorem decide_skip_branches_witness :
    ([(⟨"w1", 1, 3, "u1"⟩ : TopWallet)].length < 3) ∧
    (decidePhase ⟨5000, VAULT_RESERVE_LAMPORTS⟩ {}
      ⟨7, 7, none, none, 0, 0, 0, 0, 0, [], 0, none, .created, none⟩
      ⟨1000000000, 200, 100, 100⟩
      [⟨"w1", 1, 3, "u1"⟩]).state.carryRewardsLamports = 0 + 100 :=
  ⟨by decide,
   ((decide_skip_branches ⟨5000, VAULT_RESERVE_LAMPORTS⟩ {}
     ⟨7, 7, none, none, 0, 0, 0, 0, 0, [], 0, none, .created, none⟩
     ⟨1000000000, 200, 100, 100⟩ [⟨"w1", 1, 3, "u1"⟩]).1
     (by decide)).2.2.2.1⟩

/-- C7: when `sendPayout` reports failure, `executePayout` adds the
epoch's `totalPot` back to the carry, marks the epoch `failed` with the
reported reason (default `payout_failed`), and leaves the cursor
unchanged. -/
theorem executePayout_failure_restores_carry (state : RewardsStateRow)
    (epoch : EpochRec) (res : PayoutResponse)
    (h : res.success = false) :
    (executePayout state epoch res).1.carryRewardsLamports =
      state.carryRewardsLamports + epoch.totalPotLamports ∧
    (executePayout state epoch res).2.status = .failed ∧
    (executePayout state epoch res).2.failureReason =
      some (res.error.getD "payout_failed") ∧
    (executePayout state epoch res).1.lastProcessedPeriodId =
      state.lastProcessedPeriodId ∧
    (executePayout state epoch res).1.lastProcessedPeriodEnd =
      state.lastProcessedPeriodEnd := by
  have hcond : (res.success && res.signature.isSome) = false := by
    rw [h]
    rfl
  simp only [executePayout, hcond, Bool.false_eq_true, if_false]
  by_cases hpot : epoch.totalPotLamports = 0
  · simp [hpot]
  · simp [hpot]

/-- Witness for `executePayout_failure_restores_carry` on a paying epoch
with pot 100. -/
theorem executePayout_failure_restores_carry_witness :
    (({ success := false, error := some "rpc_error" } :
        PayoutResponse).success = false) ∧
    (executePayout {}
      ⟨7, 7, none, none, 0, 0, 0, 0, 100, [], 100, none, .paying, none⟩
      { success := false,
        error := some "rpc_error" }).1.carryRewardsLamports = 0 + 100 :=
  ⟨rfl,
   (executePayout_failure_restores_carry {}
     ⟨7, 7, none, none, 0, 0, 0, 0, 100, [], 100, none, .paying, none⟩
     { success := false, error := some "rpc_error" } rfl).1⟩

-- ===========================================================================
-- Full-tick composition and trace semantics (claim C1)
-- ===========================================================================

/-- Environment inputs consumed by one full `processEpoch` run: the two
vault-balance reads around the claim, the top-wallet query result, and
the `sendPayout` outcome. -/
structure TickInput where
  beforeBalance : Int
  afterBalance : Int
  top3 : List TopWallet
  payoutRes : PayoutResponse
deriving DecidableEq, Repr

/-- Embedding of `RewardsEngine.processEpoch` (lines 478-650) on the
no-exception path: Claim phase (status `claiming`, `beforeBalance`
recorded, inflow computed from the balance delta), Decide transaction,
and - when not skipped - the payout execution. -/
def processEpoch (cfg : Config) (state : RewardsStateRow)
    (epoch : EpochRec) (inp : TickInput) : RewardsStateRow × EpochRec :=
  let epochClaiming : EpochRec :=
    { epoch with
      status := .claiming
      beforeBalanceLamports := some inp.beforeBalance }
  let cr := computeClaimResult cfg inp.beforeBalance inp.afterBalance
  let out := decidePhase cfg state epochClaiming cr inp.top3
  if out.skip then (out.state, out.epoch)
  else executePayout out.state out.epoch inp.payoutRes

/-- The durable system state: the singleton row plus all epoch rows. -/
structure SystemState where
  state : RewardsStateRow
  epochs : List EpochRec
deriving DecidableEq, Repr

/-- Fresh deployment: default singleton row, no epochs. -/
def initialSystem : SystemState := { state := {}, epochs := [] }

/-- One engine tick, as chosen by `processNextPeriod` /
`processEpochForPeriod` (lines 367-472): either a new period gets an
epoch and is processed, or an existing `failed` epoch is reset to
`created` (line 462-467) and re-processed.  Any other target is a no-op
(`claiming`/`paying` wait for recovery; terminal epochs only move the
cursor). -/
inductive TickEvent where
  | processNew (periodId periodEnd : Nat) (inp : TickInput)
  | retryFailed (idx : Nat) (inp : TickInput)
deriving Repr

/-- The reward inflow computed by the claim phase of one tick. -/
def tickInflow (cfg : Config) (inp : TickInput) : Int :=
  (computeClaimResult cfg inp.beforeBalance inp.afterBalance).rewardInflow

/-- Apply one tick event; also returns the reward inflow of the claim
phase this tick completed (0 for a no-op event). -/
def applyTick (cfg : Config) (σ : SystemState) (ev : TickEvent) :
    SystemState × Int :=
  match ev with
  | .processNew pid pend inp =>
      let pr := processEpoch cfg σ.state { periodId := pid, periodEnd := pend } inp
      ({ state := pr.1, epochs := σ.epochs ++ [pr.2] }, tickInflow cfg inp)
  | .retryFailed i inp =>
      match σ.epochs[i]? with
      | some e =>
          if e.status = .failed then
            let pr := processEpoch cfg σ.state
              { e with status := .created, failureReason := none } inp
            ({ state := pr.1, epochs := σ.epochs.set i pr.2 },
             tickInflow cfg inp)
          else (σ, 0)
      | none => (σ, 0)

/-- Run a sequence of ticks, accumulating the total reward inflow over
all completed claim phases. -/
def runTicks (cfg : Config) : SystemState → Int → List TickEvent →
    SystemState × Int
  | σ, acc, [] => (σ, acc)
  | σ, acc, ev :: rest =>
      let st := applyTick cfg σ ev
      runTicks cfg st.1 (acc + st.2) rest

/-- `totalPaid` contribution of one epoch row: counted only for
`completed` epochs. -/
def completedPaidContrib (e : EpochRec) : Int :=
  match e.status with
  | .completed => e.totalPaidLamports
  | _ => 0

/-- Sum of `totalPaid` over all completed epoch rows. -/
def completedPaidSum (l : List EpochRec) : Int :=
  (l.map completedPaidContrib).sum

/-- Sum of the recorded `rewardInflowLamports` over all epoch rows
(every row in a trace of this model has completed its claim phase). -/
def recordInflowSum (l : List EpochRec) : Int :=
  (l.map (·.rewardInflowLamports)).sum

/-- One full `processEpoch` run moves exactly the tick's reward inflow
into carry-plus-completed-paid, whatever the outcome. -/
theorem processEpoch_carry_delta (cfg : Config) (state : RewardsStateRow)
    (epoch : EpochRec) (inp : TickInput) :
    (processEpoch cfg state epoch inp).1.carryRewardsLamports +
      completedPaidContrib (processEpoch cfg state epoch inp).2 =
    state.carryRewardsLamports + tickInflow cfg inp := by
  simp only [processEpoch, decidePhase, executePayout, finalizeEpoch,
    tickInflow, completedPaidContrib]
  repeat' split
  all_goals simp_all

/-- Appending one epoch row adds its contribution. -/
theorem completedPaidSum_append (l : List EpochRec) (e : EpochRec) :
    completedPaidSum (l ++ [e]) =
      completedPaidSum l + completedPaidContrib e := by
  simp [completedPaidSum]

/-- Replacing epoch row `i` swaps its contribution. -/
theorem completedPaidSum_set (l : List EpochRec) (i : Nat) (e a : EpochRec)
    (h : l[i]? = some a) :
    completedPaidSum (l.set i e) =
      completedPaidSum l - completedPaidContrib a + completedPaidContrib e := by
  induction l generalizing i with
  | nil => simp at h
  | cons b t ih =>
    cases i with
    | zero =>
      simp only [List.getElem?_cons_zero, Option.some.injEq] at h
      subst h
      simp [completedPaidSum]
      ring
    | succ n =>
      simp only [List.getElem?_cons_succ] at h
      have hih := ih n h
      simp only [List.set_cons_succ, completedPaidSum, List.map_cons,
        List.sum_cons] at *
      omega

/-- One tick preserves the conservation ledger. -/
theorem applyTick_conserves (cfg : Config) (σ : SystemState)
    (ev : TickEvent) :
    (applyTick cfg σ ev).1.state.carryRewardsLamports +
      completedPaidSum (applyTick cfg σ ev).1.epochs =
    σ.state.carryRewardsLamports + completedPaidSum σ.epochs +
      (applyTick cfg σ ev).2 := by
  cases ev with
  | processNew pid pend inp =>
      have h := processEpoch_carry_delta cfg σ.state
        { periodId := pid, periodEnd := pend } inp
      simp only [applyTick, completedPaidSum_append]
      omega
  | retryFailed i inp =>
      simp only [applyTick]
      cases hg : σ.epochs[i]? with
      | none => simp
      | some e =>
          by_cases hs : e.status = .failed
          · have h := processEpoch_carry_delta cfg σ.state
              { e with status := .created, failureReason := none } inp
            have hset := completedPaidSum_set σ.epochs i
              (processEpoch cfg σ.state
                { e with status := .created, failureReason := none } inp).2
              e hg
            have hcontrib : completedPaidContrib e = 0 := by
              simp [completedPaidContrib, hs]
            simp only [if_pos hs, hset, hcontrib]
            omega
          · simp [hs]

/-- The conservation ledger is invariant along any run. -/
theorem runTicks_conserves (cfg : Config) (evts : List TickEvent) :
    ∀ (σ : SystemState) (acc : Int),
      σ.state.carryRewardsLamports + completedPaidSum σ.epochs = acc →
      (runTicks cfg σ acc evts).1.state.carryRewardsLamports +
        completedPaidSum (runTicks cfg σ acc evts).1.epochs =
      (runTicks cfg σ acc evts).2 := by
  induction evts with
  | nil =>
      intro σ acc h
      simpa [runTicks] using h
  | cons ev rest ih =>
      intro σ acc h
      simp only [runTicks]
      apply ih
      have hstep := applyTick_conserves cfg σ ev
      omega

/-- The engine configuration with the default pool share and reserve. -/
def engineCfg : Config :=
  { rewardsPoolBps := 5000, vaultReserveLamports := VAULT_RESERVE_LAMPORTS }

/-- First counterexample tick: a payout failure with reward inflow 10
(balance delta 20 at 5000 bps); the pot of 10 is restored to carry and
the epoch is `failed` with `rewardInflowLamports = 10` recorded. -/
def cexTickFail : TickEvent :=
  .processNew 0 0
    { beforeBalance := 100000000
      afterBalance := 100000020
      top3 := cexTop3
      payoutRes := { success := false } }

/-- Second counterexample tick: the failed epoch is retried; the new
claim attempt has reward inflow 5 and is skipped (no eligible wallets),
overwriting the recorded `rewardInflowLamports` with 5. -/
def cexTickRetry : TickEvent :=
  .retryFailed 0
    { beforeBalance := 100000020
      afterBalance := 100000030
      top3 := []
      payoutRes := { success := false } }

/-- C1 counterexample: after a payout failure (inflow 10) followed by a
retried, skipped attempt (inflow 5), the final carry is 15 and no epoch
is completed, but the epoch rows record only the last attempt's
`rewardInflow` (5) - so `carry + Σ totalPaid(completed)` (= 15) differs
from `Σ rewardInflow(epochs whose claim phase completed)` (= 5): the
claimed identity over epoch records is false. -/
theorem carry_conservation_record_cex :
    (runTicks engineCfg initialSystem 0
        [cexTickFail, cexTickRetry]).1.state.carryRewardsLamports +
      completedPaidSum
        (runTicks engineCfg initialSystem 0
          [cexTickFail, cexTickRetry]).1.epochs = 15 ∧
    recordInflowSum
      (runTicks engineCfg initialSystem 0
        [cexTickFail, cexTickRetry]).1.epochs = 5 ∧
    ¬ ((runTicks engineCfg initialSystem 0
          [cexTickFail, cexTickRetry]).1.state.carryRewardsLamports +
        completedPaidSum
          (runTicks engineCfg initialSystem 0
            [cexTickFail, cexTickRetry]).1.epochs =
       recordInflowSum
         (runTicks engineCfg initialSystem 0
           [cexTickFail, cexTickRetry]).1.epochs) := by
  decide

/-- C1 amended: for every configuration and every sequence of ticks (any
interleaving of claim results, skips, payout successes and failures, and
retries of failed epochs), the final `carryRewardsLamports` plus the sum
of `totalPaid` over completed epochs equals the sum of `rewardInflow`
over all claim-phase completions - counting each completed claim
attempt, not only the value left on the epoch record by the last
attempt.  No rewards lamports are destroyed or double-counted. -/
theorem carry_conservation_over_claim_completions (cfg : Config)
    (evts : List TickEvent) :
    (runTicks cfg initialSystem 0 evts).1.state.carryRewardsLamports +
      completedPaidSum (runTicks cfg initialSystem 0 evts).1.epochs =
    (runTicks cfg initialSystem 0 evts).2 :=
  runTicks_conserves cfg evts initialSystem 0
    (by simp [initialSystem, completedPaidSum])

-- ===========================================================================
-- Recovery of a stuck claiming epoch (claim C8)
-- ===========================================================================

/-- Embedding of the `claiming` branch of
`RewardsEngine.recoverStuckEpochs` (lines 304-329): with a recorded
`beforeBalance`, the vault balance is re-read, the inflow recomputed
from the recorded `beforeBalance`, the epoch updated and reset to
`created`; with no recorded `beforeBalance` the epoch is marked
`failed(stuck_in_claiming_no_before_balance)`. -/
def recoverStuckClaiming (cfg : Config) (epoch : EpochRec)
    (currentBalance : Int) : EpochRec :=
  match epoch.beforeBalanceLamports with
  | some b =>
      let totalInflow :=
        if b < currentBalance then currentBalance - b else 0
      let split := splitInflow totalInflow cfg.rewardsPoolBps
      { epoch with
        afterBalanceLamports := some currentBalance
        totalInflowLamports := totalInflow
        rewardInflowLamports := split.1
        treasuryInflowLamports := split.2
        status := .created }
  | none =>
      { epoch with
        status := .failed
        failureReason := some "stuck_in_claiming_no_before_balance" }

/-- A concrete epoch stuck in `claiming` with recorded
`beforeBalance = 1000000000`. -/
def stuckClaimingEpoch : EpochRec :=
  { periodId := 0
    periodEnd := 0
    status := .claiming
    beforeBalanceLamports := some 1000000000 }

/-- C8 evidence: recovery recomputes `rewardInflow = 100000000` from the
recorded `beforeBalance` (vault now at 1200000000) and resets the epoch
to `created`; but the next tick's `processEpoch` handles every `created`
epoch by re-running the Claim phase from a fresh `beforeBalance`, so
with no further fee inflow the epoch record ends with
`rewardInflow = 0` and `totalPot = 0` - the recovered 100000000 never
reaches any pot, contradicting the claim that the next tick runs Decide
with the recomputed inflow. -/
theorem recovery_recompute_discarded_by_next_tick :
    (recoverStuckClaiming engineCfg stuckClaimingEpoch
        1200000000).rewardInflowLamports = 100000000 ∧
    (recoverStuckClaiming engineCfg stuckClaimingEpoch
        1200000000).status = .created ∧
    (processEpoch engineCfg {}
        (recoverStuckClaiming engineCfg stuckClaimingEpoch 1200000000)
        { beforeBalance := 1200000000
          afterBalance := 1200000000
          top3 := []
          payoutRes := { success := false } }).2.rewardInflowLamports =
      0 ∧
    (processEpoch engineCfg {}
        (recoverStuckClaiming engineCfg stuckClaimingEpoch 1200000000)
        { beforeBalance := 1200000000
          afterBalance := 1200000000
          top3 := []
          payoutRes := { success := false } }).2.totalPotLamports = 0 ∧
    (processEpoch engineCfg {}
        (recoverStuckClaiming engineCfg stuckClaimingEpoch 1200000000)
        { beforeBalance := 1200000000
          afterBalance := 1200000000
          top3 := []
          payoutRes := { success := false } }).1.carryRewardsLamports =
      0 := by
  decide

-- ===========================================================================
-- Top-wallet selection (claim C9, rewardsEngine.ts lines 763-794)
-- ===========================================================================

/-- One realized trade joined with its user's wallet address. -/
structure TradeRow where
  wallet : String
  profitLoss : Int
  closedAt : Nat
  userId : String
deriving DecidableEq, Repr

/-- Wallet addresses in first-occurrence order (the GROUP BY key set). -/
def distinctWallets (rows : List TradeRow) : List String :=
  rows.foldl
    (fun acc r => if acc.contains r.wallet then acc else acc ++ [r.wallet])
    []

/-- The rows of one wallet. -/
def rowsFor (rows : List TradeRow) (w : String) : List TradeRow :=
  rows.filter fun r => r.wallet == w

/-- The aggregate produced per wallet: `SUM(profitLoss)`, `COUNT(id)`,
`MIN(users.id)`. -/
def aggregateWallet (rows : List TradeRow) (w : String) : TopWallet :=
  { wallet := w
    profitLamports := ((rowsFor rows w).map (·.profitLoss)).sum
    tradeCount := (rowsFor rows w).length
    userId :=
      match (rowsFor rows w).map (·.userId) with
      | [] => ""
      | u :: us => us.foldl (fun a b => if b < a then b else a) u }

/-- The SQL ordering `ORDER BY SUM(profitLoss) DESC` - by summed profit
only, with no tie-break. -/
def profitGe (a b : TopWallet) : Prop :=
  b.profitLamports ≤ a.profitLamports

instance : DecidableRel profitGe :=
  fun a b => Int.decLe b.profitLamports a.profitLamports

instance : IsTotal TopWallet profitGe :=
  ⟨fun a b => le_total b.profitLamports a.profitLamports⟩

instance : IsTrans TopWallet profitGe :=
  ⟨fun _ _ _ hab hbc => le_trans hbc hab⟩

/-- The post-query pipeline of `getTopWallets` (lines 781-793):
`LIMIT 20`, then the three eligibility filters, then `slice(0, 3)`. -/
def selectEligible (ordered : List TopWallet) : List TopWallet :=
  ((((ordered.take 20).filter fun r =>
      decide (MIN_TRADES ≤ r.tradeCount)).filter fun r =>
      decide (0 < r.profitLamports)).filter fun r =>
      matchesAddressPattern r.wallet).take 3

/-- Embedding of `RewardsEngine.getTopWallets` (lines 763-794): group
the trades of the period window `[startTime, endTime)` by wallet, order
by summed profit descending (stable - equal profits keep the underlying
query order), keep 20 rows, filter eligibility, return the first 3. -/
def getTopWallets (rows : List TradeRow) (startTime endTime : Nat) :
    List TopWallet :=
  let inWindow := rows.filter fun r =>
    decide (startTime ≤ r.closedAt) && decide (r.closedAt < endTime)
  let grouped := (distinctWallets inWindow).map (aggregateWallet inWindow)
  selectEligible (List.insertionSort profitGe grouped)

/-- The pipeline after the sort keeps at most 3 rows, every returned row
passes all three eligibility filters, and the output stays ordered by
profit. -/
theorem selectEligible_spec (ordered : List TopWallet)
    (hs : List.Sorted profitGe ordered) :
    (selectEligible ordered).length ≤ 3 ∧
    (∀ a ∈ selectEligible ordered,
      MIN_TRADES ≤ a.tradeCount ∧ 0 < a.profitLamports ∧
      matchesAddressPattern a.wallet = true) ∧
    List.Sorted profitGe (selectEligible ordered) := by
  have hsub : (selectEligible ordered).Sublist ordered := by
    unfold selectEligible
    exact ((((List.take_sublist _ _).trans
      (List.filter_sublist _)).trans
      (List.filter_sublist _)).trans
      (List.filter_sublist _)).trans (List.take_sublist _ _)
  refine ⟨?_, ?_, ?_⟩
  · unfold selectEligible
    rw [List.length_take]
    exact min_le_left _ _
  · intro a ha
    unfold selectEligible at ha
    have h3 := (List.take_sublist 3 _).subset ha
    rw [List.mem_filter] at h3
    obtain ⟨h2, hpat⟩ := h3
    rw [List.mem_filter] at h2
    obtain ⟨h1, hpos⟩ := h2
    rw [List.mem_filter] at h1
    obtain ⟨_, htrades⟩ := h1
    exact ⟨of_decide_eq_true htrades, of_decide_eq_true hpos, hpat⟩
  · exact List.Pairwise.sublist hsub hs

/-- C9 amended: `getTopWallets` returns at most 3 rows; every returned
row has `tradeCount ≥ MIN_TRADES`, positive summed profit, and a
syntactically valid address; and the result is ordered by summed profit
descending.  (The claimed tie-break by tradeCount/wallet and the
no-omission guarantee are refuted separately.) -/
theorem getTopWallets_filters_order_limit (rows : List TradeRow)
    (startTime endTime : Nat) :
    (getTopWallets rows startTime endTime).length ≤ 3 ∧
    (∀ a ∈ getTopWallets rows startTime endTime,
      MIN_TRADES ≤ a.tradeCount ∧ 0 < a.profitLamports ∧
      matchesAddressPattern a.wallet = true) ∧
    List.Sorted profitGe (getTopWallets rows startTime endTime) := by
  unfold getTopWallets
  exact selectEligible_spec _ (List.sorted_insertionSort profitGe _)

/-- The ordering the claim asserts: profit descending, ties broken by
trade count descending, then by wallet ascending. -/
def specTieBreakLe (a b : TopWallet) : Prop :=
  b.profitLamports < a.profitLamports ∨
    (b.profitLamports = a.profitLamports ∧
      (b.tradeCount < a.tradeCount ∨
        (b.tradeCount = a.tradeCount ∧ a.wallet ≤ b.wallet)))

/-- Wallet address used by the first trader in the C9 counterexample. -/
def walletA : String := "AAAAAAAAAAAAAAAAAAAAAAAAAAAAAAAA"

/-- Wallet address used by the second trader in the C9 counterexample. -/
def walletB : String := "BBBBBBBBBBBBBBBBBBBBBBBBBBBBBBBB"

/-- Counterexample trades: wallet A has 3 trades summing to 150, wallet
B has 4 trades also summing to 150; A's rows come first. -/
def cexRows : List TradeRow :=
  [⟨walletA, 50, 1, "u1"⟩, ⟨walletA, 50, 1, "u1"⟩,
   ⟨walletA, 50, 1, "u1"⟩,
   ⟨walletB, 50, 1, "u2"⟩, ⟨walletB, 50, 1, "u2"⟩,
   ⟨walletB, 25, 1, "u2"⟩, ⟨walletB, 25, 1, "u2"⟩]

/-- C9 counterexample: both wallets are eligible with equal summed
profit 150, but the result lists A (3 trades) before B (4 trades): the
query has no tie-break, so the claimed ordering - trade count
descending among equal profits - is violated. -/
theorem getTopWallets_tiebreak_cex :
    ((getTopWallets cexRows 0 10).map fun a =>
      (a.profitLamports, a.tradeCount)) = [(150, 3), (150, 4)] ∧
    ¬ specTieBreakLe ((getTopWallets cexRows 0 10).getD 0 default)
      ((getTopWallets cexRows 0 10).getD 1 default) := by
  have h0p : ((getTopWallets cexRows 0 10).getD 0
      default).profitLamports = 150 := by decide
  have h1p : ((getTopWallets cexRows 0 10).getD 1
      default).profitLamports = 150 := by decide
  have h0t : ((getTopWallets cexRows 0 10).getD 0
      default).tradeCount = 3 := by decide
  have h1t : ((getTopWallets cexRows 0 10).getD 1
      default).tradeCount = 4 := by decide
  refine ⟨by decide, ?_⟩
  intro h
  rcases h with h | ⟨hpe, h | ⟨hte, _⟩⟩
  · omega
  · omega
  · omega

-- ===========================================================================
-- Payout submission gate (claim C10, bagsService.ts lines 136-190)
-- ===========================================================================

/-- One entry passed to `BagsService.sendPayout`. -/
structure WinnerPayout where
  wallet : String
  lamports : Int
deriving DecidableEq, Repr

/-- Per-entry validity: strictly positive amount, at most
`MAX_SAFE_LAMPORTS` (2^53 - 1), and a base58 wallet address of length
32-44. -/
def validWinner (w : WinnerPayout) : Prop :=
  0 < w.lamports ∧ w.lamports ≤ MAX_SAFE_LAMPORTS ∧
    matchesAddressPattern w.wallet = true

/-- The first validation error raised by `sendPayout`'s loop (lines
146-156), checking each entry in order: amount above the safe limit,
then non-positive amount, then invalid address. -/
def firstValidationError : List WinnerPayout → Option String
  | [] => none
  | w :: rest =>
      if MAX_SAFE_LAMPORTS < w.lamports then
        some "exceeds safe limit"
      else if w.lamports ≤ 0 then
        some "invalid payout amount"
      else if matchesAddressPattern w.wallet = false then
        some "invalid wallet address"
      else firstValidationError rest

/-- Control-flow outcome of `sendPayout`. -/
inductive PayoutDecision where
  | notReady
  | emptySuccess
  | rejected (error : String)
  | submitted
deriving DecidableEq, Repr

/-- Embedding of the decision structure of `BagsService.sendPayout`
(lines 136-156): not-ready guard, then the empty-list early success,
then per-entry validation, and only then the build-sign-submit path. -/
def sendPayoutDecision (ready : Bool) (winners : List WinnerPayout) :
    PayoutDecision :=
  if ready = false then .notReady
  else if winners.isEmpty then .emptySuccess
  else
    match firstValidationError winners with
    | some e => .rejected e
    | none => .submitted

/-- The observable result of `sendPayout`: the `(success, signature)`
pair and whether a transaction was signed and submitted on-chain; `rpc`
is the chain outcome consumed only on the submit path. -/
def sendPayoutModel (ready : Bool) (winners : List WinnerPayout)
    (rpc : Bool × Option String) : (Bool × Option String) × Bool :=
  match sendPayoutDecision ready winners with
  | .notReady => ((false, none), false)
  | .emptySuccess => ((true, none), false)
  | .rejected _ => ((false, none), false)
  | .submitted => (rpc, true)

instance (w : WinnerPayout) : Decidable (validWinner w) :=
  decidable_of_iff
    (0 < w.lamports ∧ w.lamports ≤ MAX_SAFE_LAMPORTS ∧
      matchesAddressPattern w.wallet = true) Iff.rfl

/-- The validation loop accepts exactly the lists whose every entry is
valid. -/
theorem firstValidationError_none_iff (l : List WinnerPayout) :
    firstValidationError l = none ↔ ∀ w ∈ l, validWinner w := by
  induction l with
  | nil => simp [firstValidationError]
  | cons w rest ih =>
      rw [List.forall_mem_cons]
      by_cases h1 : MAX_SAFE_LAMPORTS < w.lamports
      · simp only [firstValidationError, if_pos h1]
        constructor
        · intro h
          exact absurd h (by simp)
        · intro h
          exact absurd h.1.2.1 (by omega)
      · by_cases h2 : w.lamports ≤ 0
        · simp only [firstValidationError, if_neg h1, if_pos h2]
          constructor
          · intro h
            exact absurd h (by simp)
          · intro h
            exact absurd h.1.1 (by omega)
        · by_cases h3 : matchesAddressPattern w.wallet = false
          · simp only [firstValidationError, if_neg h1, if_neg h2,
              if_pos h3]
            constructor
            · intro h
              exact absurd h (by simp)
            · intro h
              rw [h.1.2.2] at h3
              exact absurd h3 (by simp)
          · simp only [firstValidationError, if_neg h1, if_neg h2,
              if_neg h3]
            rw [ih]
            have hv : validWinner w :=
              ⟨by omega, by omega, by simpa using h3⟩
            exact ⟨fun h => ⟨hv, h⟩, fun h => h.2⟩

/-- C10: with the service ready, `sendPayout` on an empty list returns
success with no signature and submits nothing; it submits a transaction
exactly when the list is non-empty and every entry has a strictly
positive amount at most 2^53 - 1 and a syntactically valid wallet; on
any invalid entry it returns failure without submitting. -/
theorem sendPayout_validation_gate (winners : List WinnerPayout)
    (rpc : Bool × Option String) :
    sendPayoutModel true [] rpc = ((true, none), false) ∧
    ((sendPayoutModel true winners rpc).2 = true ↔
      winners ≠ [] ∧ ∀ w ∈ winners, validWinner w) ∧
    (winners ≠ [] → ¬ (∀ w ∈ winners, validWinner w) →
      (sendPayoutModel true winners rpc).1.1 = false ∧
      (sendPayoutModel true winners rpc).2 = false) := by
  refine ⟨rfl, ?_, ?_⟩
  · cases hw : winners with
    | nil => simp [sendPayoutModel, sendPayoutDecision]
    | cons a rest =>
        cases hfe : firstValidationError (a :: rest) with
        | some e =>
            simp only [sendPayoutModel, sendPayoutDecision, hfe]
            simp only [List.isEmpty_cons, Bool.false_eq_true, if_false,
              if_neg (by simp : ¬ (true = false))]
            constructor
            · intro h
              exact absurd h (by simp)
            · intro h
              have := (firstValidationError_none_iff (a :: rest)).mpr h.2
              rw [this] at hfe
              exact absurd hfe (by simp)
        | none =>
            simp only [sendPayoutModel, sendPayoutDecision, hfe]
            simp only [List.isEmpty_cons, Bool.false_eq_true, if_false,
              if_neg (by simp : ¬ (true = false))]
            constructor
            · intro _
              exact ⟨by simp,
                (firstValidationError_none_iff (a :: rest)).mp hfe⟩
            · intro _
              trivial
  · intro hne hnall
    cases hw : winners with
    | nil => exact absurd hw hne
    | cons a rest =>
        cases hfe : firstValidationError (a :: rest) with
        | none =>
            rw [hw] at hnall
            exact absurd ((firstValidationError_none_iff
              (a :: rest)).mp hfe) hnall
        | some e =>
            simp only [sendPayoutModel, sendPayoutDecision, hfe]
            simp only [List.isEmpty_cons, Bool.false_eq_true, if_false,
              if_neg (by simp : ¬ (true = false))]
            exact ⟨trivial, trivial⟩

/-- Witness for `sendPayout_validation_gate`: a single valid winner is
submitted and the empty list succeeds without submitting. -/
theorem sendPayout_validation_gate_witness :
    (([(⟨walletA, 5⟩ : WinnerPayout)] ≠ []) ∧
      (∀ w ∈ [(⟨walletA, 5⟩ : WinnerPayout)], validWinner w)) ∧
    (sendPayoutModel true [⟨walletA, 5⟩] (true, some "sig")).2 = true :=
  ⟨⟨by simp, by decide⟩,
   (sendPayout_validation_gate [⟨walletA, 5⟩]
     (true, some "sig")).2.1.mpr ⟨by simp, by decide⟩⟩

/-- Witness for `carry_conservation_over_claim_completions` on a
one-tick trace with a payout failure. -/
theorem carry_conservation_over_claim_completions_witness :
    (runTicks engineCfg initialSystem 0
        [cexTickFail]).1.state.carryRewardsLamports +
      completedPaidSum
        (runTicks engineCfg initialSystem 0 [cexTickFail]).1.epochs =
    (runTicks engineCfg initialSystem 0 [cexTickFail]).2 :=
  carry_conservation_over_claim_completions engineCfg [cexTickFail]

/-- Witness for `getTopWallets_filters_order_limit` on the concrete
trade list. -/
theorem getTopWallets_filters_order_limit_witness :
    (getTopWallets cexRows 0 10).length ≤ 3 :=
  (getTopWallets_filters_order_limit cexRows 0 10).1
